import Mathlib

/- Shallow embedding of the SQLAgent repository: src/sql_paraser.py and
   src/sql_agent.py.  External effects (the sqlite3 engine, the LLM HTTP
   provider, json.loads) are modelled as explicit oracles supplied to the
   embedded functions; a Python exception escaping a call is modelled by
   the PyResult type. -/

/-- Result of a Python call: either a returned value or a raised exception
carrying the exception text. -/
inductive PyResult (α : Type) where
  | ret (a : α)
  | raised (e : String)
  deriving DecidableEq

/-- Message roles of the chat protocol. -/
inductive Role where
  | system
  | user
  | assistant
  deriving DecidableEq

/-- One conversation message: `\x7b"role": …, "content": …\x7d`. -/
structure Message where
  role : Role
  content : String
  deriving DecidableEq

/-- Is `pat` a leading run of `s` (on character lists)? -/
def listHasPre : List Char → List Char → Bool
  | [], _ => true
  | _ :: _, [] => false
  | p :: ps, c :: cs => (p == c) && listHasPre ps cs

/-- Does `pat` occur as a contiguous run of `s`? -/
def listHasSub (pat : List Char) : List Char → Bool
  | [] => listHasPre pat []
  | c :: cs => listHasPre pat (c :: cs) || listHasSub pat cs

/-- Python `pat in s` substring test. -/
def containsSub (s pat : String) : Bool := listHasSub pat.data s.data

/-- Python `s.strip()` (whitespace on both ends). -/
def pyStrip (s : String) : String :=
  ⟨((s.data.dropWhile Char.isWhitespace).reverse.dropWhile Char.isWhitespace).reverse⟩

/-- Python `s.lower()`. -/
def pyLower (s : String) : String := ⟨s.data.map Char.toLower⟩

/-- Python `s.split(None, 1)[0]` for a stripped, nonempty `s`: the leading
whitespace-free word. -/
def firstWord (s : String) : String := ⟨s.data.takeWhile (fun c => !c.isWhitespace)⟩

/-- Python `f"…\x7bx\x7d…"` interpolation of an optional string: `None`
prints as "None". -/
def pyStr : Option String → String
  | none => "None"
  | some s => s

/-- Does `s` start with `pat`? -/
def startsWithStr (s pat : String) : Bool := listHasPre pat.data s.data

/-- `sep.join xs`. -/
def joinSep (sep : String) : List String → String
  | [] => ""
  | [x] => x
  | x :: y :: rest => x ++ sep ++ joinSep sep (y :: rest)

/-- JSON string escaping of one character. -/
def jsonEscapeChar (c : Char) : String :=
  if c = '"' then "\\\"" else if c = '\\' then "\\\\" else String.singleton c

/-- JSON string escaping. -/
def jsonEscape (s : String) : String := joinSep "" (s.data.map jsonEscapeChar)

/-- A JSON string literal. -/
def dumpsStr (s : String) : String := "\"" ++ jsonEscape s ++ "\""

/-- A result row as produced by `dict(r)` over a `sqlite3.Row`: ordered
column-name/value pairs.  Values are carried as their JSON serializations
(what `json.dumps(value, default=str)` would print for them), since no
claim depends on the value type itself. -/
abbrev Row := List (String × String)

/-- `json.dumps` of one row dict (default separators). -/
def dumpsRow (r : Row) : String :=
  "\x7b" ++ joinSep ", " (r.map (fun kv => dumpsStr kv.1 ++ ": " ++ kv.2)) ++ "\x7d"

/-- `json.dumps(rows, default=str)` for the list of row dicts. -/
def dumpsRows (rows : List Row) : String :=
  "[" ++ joinSep ", " (rows.map dumpsRow) ++ "]"

/-- Oracle for the external sqlite3 engine at a fixed database path.
`pathExists` is `os.path.exists(db_path)`; `connectOk = false` models
`sqlite3.connect` raising `connectErr` (possible when the path exists but
cannot be opened as a database file, e.g. it is a directory).
`masterRows` is the answer of the `sqlite_master` query of `list_tables`,
each entry carrying the object name and its DDL text after `clean_sql`
(whose pure text transform no claim depends on, so the cleaned text is
supplied by the oracle).  The three exec oracles model `cursor.execute`
for a SELECT, `cursor.execute` plus `commit` for one mutating statement,
and `cursor.executescript` plus `commit` for a batch; `Except.error` is a
caught `sqlite3.Error` with its message.  For a SELECT the oracle yields
the column names of `cursor.description` and the fetched row tuples. -/
structure Engine where
  dbPath : String
  pathExists : Bool
  connectOk : Bool
  connectErr : String
  masterRows : List (String × String)
  execSelect : String → Except String (List String × List (List String))
  execOne : String → Except String (Int × Int)
  execScript : String → Except String Int

/-- Dict-building pass: keep the first occurrence of each key. -/
def dictGo : List (String × String) → List String → Row
  | [], _ => []
  | (k, v) :: rest, seen =>
    if seen.contains k then dictGo rest seen else (k, v) :: dictGo rest (k :: seen)

/-- `dict(r)` for a `sqlite3.Row` with column names `cols` and values
`vals`: keys in first-occurrence order; a duplicated column name keeps the
value of its first occurrence (Python dict insertion driven by `r.keys()`
with `r[name]` looking up the first matching column). -/
def dictOfRow (cols vals : List String) : Row := dictGo (cols.zip vals) []

/-- The dict returned by `run_sql`.  `okSelect` is
`\x7b"status":"ok","columns":…,"rows":…\x7d`; `okMut n lid` is
`\x7b"status":"ok","rows_affected":n\x7d` plus `"lastrowid"` when `lid`
is present (the single-statement path); `err` is
`\x7b"status":"error","error":…\x7d`.  Note `okMut` carries no rows
field. -/
inductive RunResult where
  | okSelect (columns : List String) (rows : List Row)
  | okMut (rows_affected : Int) (lastrowid : Option Int)
  | err (error : String)
  deriving DecidableEq

/-- `result.get("rows", [])`. -/
def RunResult.getRows : RunResult → List Row
  | .okSelect _ rows => rows
  | _ => []

/-- `run_sql` from src/sql_paraser.py lines 70-108.  `sqlite3.connect`
(line 81) sits outside the try/except, so a connection failure is raised
to the caller rather than converted to an error dict. -/
def run_sql (eng : Engine) (sql_query : Option String) : PyResult RunResult :=
  if !eng.pathExists then
    .ret (.err ("Database not found: " ++ eng.dbPath))
  else if !eng.connectOk then
    .raised eng.connectErr
  else
    let sql := pyStrip (sql_query.getD "")
    if sql = "" then .ret (.err "Empty SQL query")
    else if pyLower (firstWord sql) = "select" then
      match eng.execSelect sql with
      | .ok (cols, raws) => .ret (.okSelect cols (raws.map (dictOfRow cols)))
      | .error e => .ret (.err e)
    else if containsSub sql ";" && 0 < sql.data.count ';' then
      match eng.execScript sql with
      | .ok n => .ret (.okMut n none)
      | .error e => .ret (.err e)
    else
      match eng.execOne sql with
      | .ok nl => .ret (.okMut nl.1 (some nl.2))
      | .error e => .ret (.err e)

/-- One entry of the list returned by `list_tables`. -/
structure TableEntry where
  table_name : String
  table_sql : String
  deriving DecidableEq

/-- `list_tables` (src/sql_paraser.py lines 37-68): `none` models the `\x7b\x7d`
(non-list) returns taken when the database file is missing or the
`sqlite_master` query yields no rows; `some` is the list return.  A
`connect` failure raises (connect is outside the try). -/
def list_tables (eng : Engine) : PyResult (Option (List TableEntry)) :=
  if !eng.pathExists then .ret none
  else if !eng.connectOk then .raised eng.connectErr
  else if eng.masterRows = [] then .ret none
  else .ret (some (eng.masterRows.map (fun nm => ⟨nm.1, nm.2⟩)))

/-- `SQLAgent.get_schema_context` (src/sql_agent.py lines 27-34): the
`isinstance(tables, list)` guard leaves the description empty for the
non-list returns. -/
def get_schema_context (eng : Engine) : PyResult String :=
  match list_tables eng with
  | .raised e => .raised e
  | .ret none => .ret ""
  | .ret (some ts) =>
    .ret (ts.foldl (fun acc t =>
      acc ++ "Table: " ++ t.table_name ++ "\n" ++ t.table_sql ++ "\n\n") "")

/-- One outcome of `client.chat.completions.create`: the assistant text,
or an exception with its `str(e)` text. -/
inductive ProviderOutcome where
  | success (text : String)
  | failure (err : String)
  deriving DecidableEq

/-- The completion provider as a stream: the outcome of the i-th API call
of the run. -/
abbrev Provider := Nat → ProviderOutcome

/-- `json.loads` plus the `.get` field reads the loop performs on the
parsed object: either a JSONDecodeError, or an object with the
(string-valued) fields `type`, `thought`, `sql`, `content` as read by
`.get` (absent fields are `none`). -/
inductive ParseResult where
  | notJson
  | obj (type thought sql content : Option String)
  deriving DecidableEq

/-- Oracle for `json.loads` over raw response texts. -/
abbrev JsonLoads := String → ParseResult

/-- The corrective reminder appended before a format-validation retry
(src/sql_agent.py line 57): note its role is `system`. -/
def reminderMessage : Message :=
  ⟨.system, "IMPORTANT: You must respond ONLY with a valid JSON object. No conversational text before or after."⟩

/-- `messages[-1]["role"]` (for a nonempty list). -/
def lastRole : List Message → Option Role
  | [] => none
  | [m] => some m.role
  | _ :: m :: rest => lastRole (m :: rest)

/-- The retry predicate of `get_completion` (line 53):
`"json_validate_failed" in str(e).lower() or "400" in str(e)`. -/
def marker (e : String) : Bool :=
  containsSub (pyLower e) "json_validate_failed" || containsSub e "400"

/-- The retry loop of `SQLAgent.get_completion` (src/sql_agent.py lines
42-62); `fuel` is the number of remaining attempts (3 at entry), `idx`
the provider call index.  Returns the response text ("" on give-up), the
possibly extended message list, and the next call index.  A failure whose
description does not match `marker` skips the corrective append but, for
`fuel > 1`, still falls through to the next for-loop iteration. -/
def get_completion_go (p : Provider) : Nat → List Message → Nat → String × List Message × Nat
  | 0, msgs, idx => ("", msgs, idx)
  | fuel + 1, msgs, idx =>
    match p idx with
    | .success t => (t, msgs, idx + 1)
    | .failure e =>
      if marker e then
        if 0 < fuel then
          get_completion_go p fuel
            (if lastRole msgs = some Role.system then msgs else msgs ++ [reminderMessage])
            (idx + 1)
        else ("", msgs, idx + 1)
      else
        if fuel = 0 then ("", msgs, idx + 1)
        else get_completion_go p fuel msgs (idx + 1)

/-- `SQLAgent.get_completion` with `max_retries = 3`. -/
def get_completion (p : Provider) (msgs : List Message) (idx : Nat) :
    String × List Message × Nat :=
  get_completion_go p 3 msgs idx

/-- Python truthiness of an optional string (`None` and "" are falsy). -/
def truthy : Option String → Bool
  | none => false
  | some s => !(s == "")

/-- State of one `process_message` run: the conversation, the yielded
events, the number of provider API calls made, and (instrumentation) the
arguments passed to `run_sql`, in order. -/
structure LoopState where
  msgs : List Message
  events : List String
  calls : Nat
  sqlRuns : List (Option String)
  deriving DecidableEq

/-- Corrective user message after a JSON parse failure (line 118). -/
def invalidJsonContent : String :=
  "Error: Invalid JSON response. Please respond with valid JSON."

/-- Corrective user message after an unknown decision type (line 164). -/
def unknownTypeContent : String :=
  "Error: Unknown response type. Use \x27sql\x27 or \x27answer\x27."

/-- The step-limit-exceeded terminal event (line 167). -/
def maxStepsEvent : String :=
  "Error: Agent reached maximum steps without a final answer."

/-- The feedback text built for an ok result (lines 134-145), with
`MAX_PREVIEW_ROWS = 10`. -/
def okFeedback (rows : List Row) : String :=
  if 10 < rows.length then
    "Query returned " ++ toString rows.length ++
    " rows. This is too many to show. Here are the first 10 rows:\n" ++
    dumpsRows (rows.take 10) ++
    "\n\nPlease refine your query if you need more specific data, or use this sample to answer."
  else
    "Query returned " ++ toString rows.length ++ " rows:\n" ++ dumpsRows rows

/-- Lines 127-155 of src/sql_agent.py: the `response_type == "sql"` branch
of one loop iteration.  Returns the events yielded in the branch and the
new message list. -/
def sqlBranch (eng : Engine) (response_text : String) (sq : Option String)
    (msgs : List Message) : PyResult (List String × List Message) :=
  match run_sql eng sq with
  | .raised e => .raised e
  | .ret (.err m) =>
    .ret (["Executing SQL: " ++ pyStr sq, "SQL Error: " ++ m],
          msgs ++ [⟨.assistant, response_text⟩, ⟨.user, "SQL Error: " ++ m⟩])
  | .ret r =>
    .ret (["Executing SQL: " ++ pyStr sq,
           "SQL Result (" ++ toString r.getRows.length ++ " rows)"],
          msgs ++ [⟨.assistant, response_text⟩, ⟨.user, okFeedback r.getRows⟩])

/-- The while loop of `process_message` (lines 106-167); `fuel` is the
number of remaining steps of the budget of 10.  When the fuel runs out the
`step >= max_steps` epilogue appends the terminal error event. -/
def pm_go (eng : Engine) (p : Provider) (jl : JsonLoads) :
    Nat → LoopState → PyResult LoopState
  | 0, st => .ret { st with events := st.events ++ [maxStepsEvent] }
  | fuel + 1, st =>
    let gc := get_completion p st.msgs st.calls
    match jl gc.1 with
    | .notJson =>
      pm_go eng p jl fuel
        ⟨gc.2.1 ++ [⟨.user, invalidJsonContent⟩],
         st.events ++ ["Debug: Failed to parse JSON response: " ++ gc.1],
         gc.2.2, st.sqlRuns⟩
    | .obj ty th sq ct =>
      let evs := st.events ++ (if truthy th then ["Thought: " ++ th.getD ""] else [])
      if ty = some "sql" then
        match sqlBranch eng gc.1 sq gc.2.1 with
        | .raised e => .raised e
        | .ret bm => pm_go eng p jl fuel ⟨bm.2, evs ++ bm.1, gc.2.2, st.sqlRuns ++ [sq]⟩
      else if ty = some "answer" then
        .ret ⟨gc.2.1, evs ++ ["Final Answer: " ++ pyStr ct], gc.2.2, st.sqlRuns⟩
      else
        pm_go eng p jl fuel
          ⟨gc.2.1 ++ [⟨.user, unknownTypeContent⟩],
           evs ++ ["Debug: Unknown response type: " ++ pyStr ty],
           gc.2.2, st.sqlRuns⟩

/-- The system prompt of `process_message` (lines 73-100), with the schema
context interpolated. -/
def systemPrompt (schema_context : String) : String :=
  "You are a SQL agent. You have access to a SQLite database.\nSchema:\n" ++
  schema_context ++
  "\n\nYou interact with the database to answer the user\x27s question.\n" ++
  "You can iteratively execute SQL queries to investigate data.\n" ++
  "You will query the database to get the answers, NEVER guess.\n" ++
  "If a query returns too many rows, you will see a truncated result, and you should refine your query (e.g., using aggregations or limits).\n" ++
  "\nRESPONSE FORMAT:\nYou must respond with a JSON object. Ensure the entire response is a single JSON object.\n" ++
  "\nExample for SQL:\n\x7b\n    \"type\": \"sql\",\n    \"sql\": \"SELECT ...\",\n    \"thought\": \"Brief logic\"\n\x7d\n" ++
  "\nExample for Answer:\n\x7b\n    \"type\": \"answer\",\n    \"content\": \"Final human-readable answer\",\n    \"thought\": \"How I got here\"\n\x7d\n" ++
  "\nStrictly NO markdown blocks, NO preamble, and NO text outside the JSON.\n"

/-- `SQLAgent.process_message` (src/sql_agent.py lines 64-167): events are
the yielded strings, in order. -/
def process_message (eng : Engine) (p : Provider) (jl : JsonLoads)
    (user_input : String) : PyResult LoopState :=
  match get_schema_context eng with
  | .raised e => .raised e
  | .ret ctx =>
    if ctx = "" then
      .ret ⟨[], ["Error: Could not retrieve schema."], 0, []⟩
    else
      pm_go eng p jl 10
        ⟨[⟨.system, systemPrompt ctx⟩, ⟨.user, user_input⟩], [], 0, []⟩

/-- The conversation list at the end of a `process_message` run ([] when
the run raised or never built one). -/
def finalMsgs (eng : Engine) (p : Provider) (jl : JsonLoads)
    (user_input : String) : List Message :=
  match process_message eng p jl user_input with
  | .ret st => st.msgs
  | .raised _ => []

/- Definitions supporting the claim statements: well-formedness of the
   engine oracle, the conversation-role invariants, and concrete fixtures
   used by witnesses and counterexamples. -/

/-- Well-formedness of the SELECT oracle: sqlite guarantees that every
fetched row tuple has one value per `cursor.description` column. -/
def selectWF (eng : Engine) : Prop :=
  ∀ s cols raws, eng.execSelect s = .ok (cols, raws) → ∀ r ∈ raws, r.length = cols.length

/-- Adjacency constraint of the amended conversation invariant: an
assistant message is immediately followed by a user message, and no two
system messages are adjacent. -/
def pairOk : Role → Role → Bool
  | .assistant, r => r == Role.user
  | .system, r => !(r == Role.system)
  | .user, _ => true

/-- `chainOk prev tail`: the role list `tail`, coming after a message of
role `prev`, satisfies `pairOk` at every adjacent pair and does not end in
an assistant message. -/
def chainOk : Role → List Role → Bool
  | prev, [] => !(prev == Role.assistant)
  | prev, r :: rest => pairOk prev r && chainOk r rest

/-- Last element of a role list, with `prev` as the value for []. -/
def lastOf : Role → List Role → Role
  | prev, [] => prev
  | _, r :: rest => lastOf r rest

/-- Amended conversation invariant on a role list: a system prompt, then
the user question, then a `chainOk` tail. -/
def okRoles : List Role → Bool
  | .system :: .user :: tail => chainOk Role.user tail
  | _ => false

/-- Amended conversation invariant on a message list. -/
def amendInv (msgs : List Message) : Bool := okRoles (msgs.map (fun m => m.role))

/-- Tail constraint of the invariant exactly as claim C5 states it: after
the leading system prompt, only assistant and user roles appear (never
system), every assistant immediately followed by a user, extra user
messages (repairs) allowed anywhere. -/
def claimTail : List Role → Bool
  | [] => true
  | .system :: _ => false
  | .assistant :: rest => (rest.head? == some Role.user) && claimTail rest
  | .user :: rest => claimTail rest

/-- The conversation invariant exactly as claim C5 states it. -/
def claimInv (msgs : List Message) : Bool :=
  match msgs.map (fun m => m.role) with
  | Role.system :: rest => claimTail rest
  | _ => false

/-- Last element of a role list as an Option. -/
def lastR : List Role → Option Role
  | [] => none
  | [r] => some r
  | _ :: r :: rest => lastR (r :: rest)

/-- Fixture: a one-table database whose engine rejects every statement
with a syntax error (as sqlite does for misspelled keywords). -/
def engSyntaxErr : Engine :=
  { dbPath := "chinook.db", pathExists := true, connectOk := true, connectErr := "",
    masterRows := [("t", "CREATE TABLE t (x)")],
    execSelect := fun _ => .error "near \"selct\": syntax error",
    execOne := fun _ => .error "near \"selct\": syntax error",
    execScript := fun _ => .error "near \"selct\": syntax error" }

/-- Fixture: a path that exists but cannot be opened as a database (for
example a directory), so `sqlite3.connect` raises. -/
def engDirPath : Engine :=
  { engSyntaxErr with
    dbPath := "somedir"
    connectOk := false
    connectErr := "unable to open database file" }

/-- Fixture: engine answering every SELECT with two columns of the same
name (as `SELECT 1 AS a, 2 AS a` produces). -/
def engDupCols : Engine :=
  { engSyntaxErr with
    execSelect := fun _ => .ok (["a", "a"], [["1", "2"]]) }

/-- Fixture: engine answering every SELECT with two distinct columns and
two rows. -/
def engGoodSel : Engine :=
  { engSyntaxErr with
    execSelect := fun _ => .ok (["a", "b"], [["1", "2"], ["3", "4"]]) }

/-- Fixture: engine accepting mutations (rowcount 1, lastrowid 42 for a
single statement; rowcount -1 for a script, as `executescript` leaves). -/
def engMut : Engine :=
  { engSyntaxErr with
    execOne := fun _ => .ok (1, 42)
    execScript := fun _ => .ok (-1) }

/-- Fixture: twelve one-column rows, as dict rows. -/
def rows12 : List Row :=
  [[("n", "1")], [("n", "2")], [("n", "3")], [("n", "4")], [("n", "5")], [("n", "6")],
   [("n", "7")], [("n", "8")], [("n", "9")], [("n", "10")], [("n", "11")], [("n", "12")]]

/-- Fixture: engine answering every SELECT with twelve rows. -/
def engManyRows : Engine :=
  { engSyntaxErr with
    execSelect := fun _ =>
      .ok (["n"], [["1"], ["2"], ["3"], ["4"], ["5"], ["6"], ["7"], ["8"], ["9"], ["10"], ["11"], ["12"]]) }

/-- Fixture: the database file does not exist. -/
def engNoFile : Engine :=
  { engSyntaxErr with pathExists := false }

/-- Fixture: first provider call fails with a network-style error (no
format-validation marker), the second succeeds. -/
def provNetThenOk : Provider := fun i =>
  if i = 0 then .failure "Connection reset by peer" else .success "hello"

/-- Fixture: every provider call fails with a network-style error. -/
def provAllNet : Provider := fun _ => .failure "Connection reset by peer"

/-- Fixture: every provider call succeeds with the text "ANS". -/
def provAns : Provider := fun _ => .success "ANS"

/-- Fixture: every provider call succeeds with prose that is not JSON. -/
def provMalformed : Provider := fun _ => .success "I cannot answer that."

/-- Fixture: first provider call fails with a Groq-style format-validation
error, the second succeeds. -/
def provValidFail : Provider := fun i =>
  if i = 0 then .failure "Error code: 400 - json_validate_failed" else .success "ANS"

/-- Fixture: `json.loads` oracle parsing every text as an answer decision
with content "done" and no thought. -/
def jlAnswer : JsonLoads := fun _ => .obj (some "answer") none none (some "done")

/-- Fixture: `json.loads` oracle failing on every text. -/
def jlNever : JsonLoads := fun _ => .notJson

/-- Fixture: a two-message seed conversation. -/
def msgsInit : List Message := [⟨.system, "s"⟩, ⟨.user, "u"⟩]

set_option maxRecDepth 100000

/- Helper lemmas. -/

/-- A string is a leading run of itself followed by anything. -/
theorem listHasPre_append (l m : List Char) : listHasPre l (l ++ m) = true := by
  induction l with
  | nil => rfl
  | cons c cs ih => simp [listHasPre, ih]

/-- `pre ++ s` starts with `pre`. -/
theorem startsWithStr_append (pre s : String) : startsWithStr (pre ++ s) pre = true := by
  unfold startsWithStr
  rw [String.data_append]
  exact listHasPre_append pre.data s.data

/-- When the provider call succeeds, `get_completion` returns its text on
the first attempt, leaving the conversation untouched. -/
theorem gc_success (p : Provider) (msgs : List Message) (idx : Nat) (t : String)
    (h : p idx = .success t) : get_completion p msgs idx = (t, msgs, idx + 1) := by
  unfold get_completion
  show get_completion_go p (2 + 1) msgs idx = _
  simp [get_completion_go, h]

/-- With pairwise distinct keys not yet seen, the dict pass keeps every
pair. -/
theorem dictGo_eq_self (l : List (String × String)) :
    ∀ seen : List String, (l.map Prod.fst).Nodup →
      (∀ k ∈ l.map Prod.fst, k ∉ seen) → dictGo l seen = l := by
  induction l with
  | nil => intro seen _ _; rfl
  | cons kv rest ih =>
    intro seen hnd hdisj
    obtain ⟨k, v⟩ := kv
    simp only [List.map_cons, List.nodup_cons] at hnd
    have hk : k ∉ seen := hdisj k (by simp)
    have hc : seen.contains k = false := by
      rw [List.contains_eq_any_beq]
      simp only [List.any_eq_false, beq_iff_eq]
      exact fun x hx he => hk (he ▸ hx)
    simp only [dictGo, hc, Bool.false_eq_true, if_false]
    rw [ih (k :: seen) hnd.2]
    intro k' hk'
    simp only [List.mem_cons, not_or]
    exact ⟨fun he => hnd.1 (he ▸ hk'), hdisj k' (by simp [hk'])⟩

/-- With pairwise distinct column names, `dict(row)` has one key per
column. -/
theorem dictOfRow_length (cols vals : List String) (hnd : cols.Nodup)
    (hlen : vals.length = cols.length) : (dictOfRow cols vals).length = cols.length := by
  unfold dictOfRow
  have hfst : (cols.zip vals).map Prod.fst = cols := List.map_fst_zip cols vals (le_of_eq hlen.symm)
  rw [dictGo_eq_self (cols.zip vals) [] (by rw [hfst]; exact hnd) (by simp)]
  rw [List.length_zip, hlen, Nat.min_self]

/-- Substring search for a single character is membership. -/
theorem listHasSub_single (c : Char) (l : List Char) :
    listHasSub [c] l = l.contains c := by
  induction l with
  | nil => rfl
  | cons x xs ih =>
    simp only [listHasSub, listHasPre, Bool.and_true, ih, List.contains_cons]

/-- Python `";" in sql` agrees with `sql.count(";") > 0`. -/
theorem semi_count (s : String) :
    containsSub s ";" = true ↔ 0 < s.data.count ';' := by
  unfold containsSub
  have hd : (";" : String).data = [';'] := rfl
  rw [hd, listHasSub_single, List.contains_eq_any_beq]
  simp [List.any_eq_true, List.count_pos_iff]

/-- With a provider whose every response fails to parse as JSON, every
loop iteration consumes one provider call, emits one parse-failure debug
event, and the run ends with the step-limit event. -/
theorem pm_go_malformed (eng : Engine) (p : Provider) (jl : JsonLoads)
    (h : ∀ i, ∃ r, p i = .success r ∧ jl r = .notJson) :
    ∀ (n : Nat) (st : LoopState), ∃ (out : LoopState) (evs : List String),
      pm_go eng p jl n st = .ret out ∧
      out.events = st.events ++ evs ++ [maxStepsEvent] ∧
      evs.length = n ∧
      (∀ e ∈ evs, startsWithStr e "Debug: Failed to parse JSON response: " = true) ∧
      out.calls = st.calls + n ∧ out.sqlRuns = st.sqlRuns := by
  intro n
  induction n with
  | zero =>
    intro st
    exact ⟨_, [], rfl, by simp, rfl, by simp, rfl, rfl⟩
  | succ k ih =>
    intro st
    obtain ⟨r, hp, hj⟩ := h st.calls
    have hgc := gc_success p st.msgs st.calls r hp
    obtain ⟨out, evs, hout, hev, hlen, hpre, hcalls, hsql⟩ :=
      ih ⟨st.msgs ++ [⟨.user, invalidJsonContent⟩],
          st.events ++ ["Debug: Failed to parse JSON response: " ++ r],
          st.calls + 1, st.sqlRuns⟩
    refine ⟨out, ("Debug: Failed to parse JSON response: " ++ r) :: evs, ?_, ?_, ?_, ?_, ?_, ?_⟩
    · rw [pm_go, hgc]
      dsimp only
      rw [hj]
      exact hout
    · rw [hev]
      simp
    · simp [hlen]
    · intro e he
      rcases List.mem_cons.mp he with he | he
      · subst he
        exact startsWithStr_append "Debug: Failed to parse JSON response: " r
      · exact hpre e he
    · rw [hcalls]; dsimp only; omega
    · exact hsql

/-- `messages[-1].role` through the role projection. -/
theorem lastRole_map (msgs : List Message) :
    lastRole msgs = lastR (msgs.map (fun m => m.role)) := by
  induction msgs with
  | nil => rfl
  | cons m rest ih =>
    cases rest with
    | nil => rfl
    | cons m2 rest2 =>
      simp only [List.map_cons]
      rw [lastRole, lastR]
      rw [← List.map_cons]
      exact ih

/-- `lastR` of a nonempty list through `lastOf`. -/
theorem lastR_cons (l : List Role) : ∀ a, lastR (a :: l) = some (lastOf a l) := by
  induction l with
  | nil => intro a; rfl
  | cons r rest ih =>
    intro a
    rw [lastR, lastOf]
    exact ih r

/-- Appending a user-role message preserves `chainOk`. -/
theorem chainOk_append_user (t : List Role) :
    ∀ prev, chainOk prev t = true → chainOk prev (t ++ [Role.user]) = true := by
  induction t with
  | nil => intro prev _; cases prev <;> rfl
  | cons r rest ih =>
    intro prev h
    rw [chainOk] at h
    rw [List.cons_append, chainOk]
    simp only [Bool.and_eq_true] at h ⊢
    exact ⟨h.1, ih r h.2⟩

/-- Appending a system-role message preserves `chainOk` when the current
last role is not system. -/
theorem chainOk_append_system (t : List Role) :
    ∀ prev, chainOk prev t = true → lastOf prev t ≠ Role.system →
      chainOk prev (t ++ [Role.system]) = true := by
  induction t with
  | nil =>
    intro prev h hl
    cases prev with
    | assistant => exact absurd h (by decide)
    | system => exact absurd rfl hl
    | user => rfl
  | cons r rest ih =>
    intro prev h hl
    rw [chainOk] at h
    rw [List.cons_append, chainOk]
    simp only [Bool.and_eq_true] at h ⊢
    exact ⟨h.1, ih r h.2 (by rw [lastOf] at hl; exact hl)⟩

/-- Appending an assistant/user message pair preserves `chainOk`. -/
theorem chainOk_append_au (t : List Role) :
    ∀ prev, chainOk prev t = true →
      chainOk prev (t ++ [Role.assistant, Role.user]) = true := by
  induction t with
  | nil =>
    intro prev h
    cases prev with
    | assistant => exact absurd h (by decide)
    | system => rfl
    | user => rfl
  | cons r rest ih =>
    intro prev h
    rw [chainOk] at h
    rw [List.cons_append, chainOk]
    simp only [Bool.and_eq_true] at h ⊢
    exact ⟨h.1, ih r h.2⟩

/-- Inversion of `okRoles`. -/
theorem okRoles_shape (rs : List Role) (h : okRoles rs = true) :
    ∃ tail, rs = Role.system :: Role.user :: tail ∧ chainOk Role.user tail = true := by
  unfold okRoles at h
  split at h
  · exact ⟨_, rfl, h⟩
  · exact absurd h (by simp)

/-- Appending a user-role message preserves the amended invariant. -/
theorem amendInv_append_user (msgs : List Message) (c : String)
    (h : amendInv msgs = true) : amendInv (msgs ++ [⟨.user, c⟩]) = true := by
  unfold amendInv at h ⊢
  obtain ⟨tail, heq, hchain⟩ := okRoles_shape _ h
  rw [List.map_append, heq]
  show okRoles (Role.system :: Role.user :: (tail ++ [Role.user])) = true
  unfold okRoles
  exact chainOk_append_user tail Role.user hchain

/-- Appending a system-role message preserves the amended invariant when
the conversation does not already end in a system message. -/
theorem amendInv_append_system (msgs : List Message) (c : String)
    (h : amendInv msgs = true) (hl : lastRole msgs ≠ some Role.system) :
    amendInv (msgs ++ [⟨.system, c⟩]) = true := by
  unfold amendInv at h ⊢
  obtain ⟨tail, heq, hchain⟩ := okRoles_shape _ h
  rw [lastRole_map, heq] at hl
  have hl2 : lastOf Role.user tail ≠ Role.system := by
    intro he
    apply hl
    rw [show lastR (Role.system :: Role.user :: tail) = lastR (Role.user :: tail) from rfl]
    rw [lastR_cons, he]
  rw [List.map_append, heq]
  show okRoles (Role.system :: Role.user :: (tail ++ [Role.system])) = true
  unfold okRoles
  exact chainOk_append_system tail Role.user hchain hl2

/-- Appending an assistant/user pair preserves the amended invariant. -/
theorem amendInv_append_au (msgs : List Message) (c1 c2 : String)
    (h : amendInv msgs = true) :
    amendInv (msgs ++ [⟨.assistant, c1⟩, ⟨.user, c2⟩]) = true := by
  unfold amendInv at h ⊢
  obtain ⟨tail, heq, hchain⟩ := okRoles_shape _ h
  rw [List.map_append, heq]
  show okRoles (Role.system :: Role.user :: (tail ++ [Role.assistant, Role.user])) = true
  unfold okRoles
  exact chainOk_append_au tail Role.user hchain

/-- The retry loop only ever appends the (guarded) system reminder, so it
preserves the amended invariant. -/
theorem gc_go_inv (p : Provider) :
    ∀ (fuel : Nat) (msgs : List Message) (idx : Nat),
      amendInv msgs = true →
      amendInv (get_completion_go p fuel msgs idx).2.1 = true := by
  intro fuel
  induction fuel with
  | zero => intro msgs idx h; exact h
  | succ k ih =>
    intro msgs idx h
    rw [get_completion_go]
    cases hp : p idx with
    | success t => exact h
    | failure e =>
      dsimp only
      by_cases hm : marker e
      · rw [if_pos hm]
        by_cases hf : 0 < k
        · rw [if_pos hf]
          by_cases hl : lastRole msgs = some Role.system
          · rw [if_pos hl]
            exact ih msgs (idx + 1) h
          · rw [if_neg hl]
            exact ih _ (idx + 1) (amendInv_append_system msgs _ h hl)
        · rw [if_neg hf]
          exact h
      · rw [if_neg hm]
        by_cases hf : k = 0
        · rw [if_pos hf]
          exact h
        · rw [if_neg hf]
          exact ih msgs (idx + 1) h

/-- `get_completion` preserves the amended invariant. -/
theorem gc_inv (p : Provider) (msgs : List Message) (idx : Nat)
    (h : amendInv msgs = true) :
    amendInv (get_completion p msgs idx).2.1 = true :=
  gc_go_inv p 3 msgs idx h

/-- The sql branch appends exactly an assistant/user pair, preserving the
amended invariant. -/
theorem sqlBranch_msgs (eng : Engine) (raw : String) (sq : Option String)
    (msgs : List Message) (evs : List String) (msgs2 : List Message)
    (h : sqlBranch eng raw sq msgs = .ret (evs, msgs2))
    (hin : amendInv msgs = true) : amendInv msgs2 = true := by
  unfold sqlBranch at h
  cases hr : run_sql eng sq with
  | raised e =>
    rw [hr] at h
    exact absurd h (by simp)
  | ret r =>
    rw [hr] at h
    cases r with
    | err m =>
      dsimp only at h
      injection h with h
      rw [Prod.mk.injEq] at h
      rw [← h.2]
      exact amendInv_append_au msgs _ _ hin
    | okSelect cols rows =>
      dsimp only at h
      injection h with h
      rw [Prod.mk.injEq] at h
      rw [← h.2]
      exact amendInv_append_au msgs _ _ hin
    | okMut n lid =>
      dsimp only at h
      injection h with h
      rw [Prod.mk.injEq] at h
      rw [← h.2]
      exact amendInv_append_au msgs _ _ hin

/-- The agent loop preserves the amended conversation invariant. -/
theorem pm_go_inv (eng : Engine) (p : Provider) (jl : JsonLoads) :
    ∀ (fuel : Nat) (st out : LoopState),
      amendInv st.msgs = true → pm_go eng p jl fuel st = .ret out →
      amendInv out.msgs = true := by
  intro fuel
  induction fuel with
  | zero =>
    intro st out h hout
    rw [pm_go] at hout
    injection hout with hout
    rw [← hout]
    exact h
  | succ k ih =>
    intro st out h hout
    rw [pm_go] at hout
    have hgc : amendInv (get_completion p st.msgs st.calls).2.1 = true :=
      gc_inv p st.msgs st.calls h
    cases hj : jl (get_completion p st.msgs st.calls).1 with
    | notJson =>
      rw [hj] at hout
      exact ih _ out (amendInv_append_user _ _ hgc) hout
    | obj ty th sq ct =>
      rw [hj] at hout
      dsimp only at hout
      by_cases hty : ty = some "sql"
      · rw [if_pos hty] at hout
        cases hb : sqlBranch eng (get_completion p st.msgs st.calls).1 sq
            (get_completion p st.msgs st.calls).2.1 with
        | raised e =>
          rw [hb] at hout
          exact absurd hout (by simp)
        | ret bm =>
          rw [hb] at hout
          obtain ⟨bevs, bmsgs⟩ := bm
          exact ih _ out (sqlBranch_msgs eng _ sq _ bevs bmsgs hb hgc) hout
      · rw [if_neg hty] at hout
        by_cases hta : ty = some "answer"
        · rw [if_pos hta] at hout
          injection hout with hout
          rw [← hout]
          exact hgc
        · rw [if_neg hta] at hout
          exact ih _ out (amendInv_append_user _ _ hgc) hout

/- Claim theorems. -/

/-- Claim C1: for every provider whose every response fails JSON parsing
(and a database whose schema is retrievable), `process_message` runs
exactly 10 loop iterations — one provider call and one parse-failure debug
event per iteration — and its last emitted event is the step-limit error
event; no SQL is ever executed. -/
theorem claim_C1_thm (eng : Engine) (p : Provider) (jl : JsonLoads) (input ctx : String)
    (hs : get_schema_context eng = .ret ctx) (hc : ctx ≠ "")
    (h : ∀ i, ∃ r, p i = .success r ∧ jl r = .notJson) :
    ∃ out : LoopState, process_message eng p jl input = .ret out ∧
      out.events.length = 11 ∧
      out.events.getLast? = some maxStepsEvent ∧
      (∀ e ∈ out.events.dropLast, startsWithStr e "Debug: Failed to parse JSON response: " = true) ∧
      out.calls = 10 ∧ out.sqlRuns = [] := by
  obtain ⟨out, evs, hout, hev, hlen, hpre, hcalls, hsql⟩ :=
    pm_go_malformed eng p jl h 10
      ⟨[⟨.system, systemPrompt ctx⟩, ⟨.user, input⟩], [], 0, []⟩
  refine ⟨out, ?_, ?_, ?_, ?_, ?_, ?_⟩
  · unfold process_message
    rw [hs]
    dsimp only
    rw [if_neg hc]
    exact hout
  · rw [hev]; simp [hlen]
  · rw [hev]
    simp only [List.nil_append]
    exact List.getLast?_concat evs
  · intro e he
    rw [hev] at he
    simp only [List.nil_append, List.dropLast_concat] at he
    exact hpre e he
  · rw [hcalls]
  · rw [hsql]

/-- Claim C1 witness: the theorem instantiated at a concrete database and
an always-malformed provider. -/
theorem claim_C1_wit :
    ∃ out : LoopState, process_message engSyntaxErr provMalformed jlNever "hi" = .ret out ∧
      out.events.length = 11 ∧
      out.events.getLast? = some maxStepsEvent ∧
      (∀ e ∈ out.events.dropLast, startsWithStr e "Debug: Failed to parse JSON response: " = true) ∧
      out.calls = 10 ∧ out.sqlRuns = [] :=
  claim_C1_thm engSyntaxErr provMalformed jlNever "hi" "Table: t\nCREATE TABLE t (x)\n\n"
    rfl (by decide) (fun i => ⟨"I cannot answer that.", rfl, rfl⟩)

/-- Claim C2: when the provider returns an answer decision with content
`x` on the first step, `process_message` emits exactly the final-answer
event and stops after one iteration: one provider call, no SQL execution,
the conversation left at its two seed messages. -/
theorem claim_C2_thm (eng : Engine) (p : Provider) (jl : JsonLoads)
    (input raw x ctx : String)
    (hs : get_schema_context eng = .ret ctx) (hc : ctx ≠ "")
    (hp : p 0 = .success raw)
    (hj : jl raw = .obj (some "answer") none none (some x)) :
    process_message eng p jl input =
      .ret ⟨[⟨.system, systemPrompt ctx⟩, ⟨.user, input⟩], ["Final Answer: " ++ x], 1, []⟩ := by
  unfold process_message
  rw [hs]
  dsimp only
  rw [if_neg hc]
  show pm_go eng p jl (9 + 1) _ = _
  rw [pm_go]
  rw [gc_success p _ 0 raw hp]
  simp [hj, truthy, pyStr]

/-- Claim C2 witness: the theorem instantiated at a concrete database and
answer-on-first-call provider. -/
theorem claim_C2_wit :
    process_message engSyntaxErr provAns jlAnswer "how many rows?" =
      .ret ⟨[⟨.system, systemPrompt "Table: t\nCREATE TABLE t (x)\n\n"⟩, ⟨.user, "how many rows?"⟩],
            ["Final Answer: done"], 1, []⟩ :=
  claim_C2_thm engSyntaxErr provAns jlAnswer "how many rows?" "ANS" "done"
    "Table: t\nCREATE TABLE t (x)\n\n" rfl (by decide) rfl rfl

/-- Claim C3 counterexample: `run_sql` can raise — `sqlite3.connect` is
outside the try/except, so when the path exists but cannot be opened as a
database file (for example it is a directory) the exception escapes to
the caller, refuting the universal no-raise claim. -/
theorem claim_C3_cex :
    ¬ (∀ (eng : Engine) (q e : String), run_sql eng (some q) ≠ PyResult.raised e) := by
  intro h
  exact h engDirPath "SELECT 1" "unable to open database file" (by decide)

/-- Claim C3 (amended): once the connection opens successfully, `run_sql`
never raises; and whenever the engine rejects the consulted statement
(for example syntactically invalid SQL), the result has status error. -/
theorem claim_C3_thm (eng : Engine) (q : Option String) (hconn : eng.connectOk = true) :
    (∃ r, run_sql eng q = .ret r) ∧
    (∀ e1 e2 e3,
      eng.execSelect (pyStrip (q.getD "")) = .error e1 →
      eng.execOne (pyStrip (q.getD "")) = .error e2 →
      eng.execScript (pyStrip (q.getD "")) = .error e3 →
      ∃ m, run_sql eng q = .ret (.err m)) := by
  unfold run_sql
  rw [hconn]
  cases hpe : eng.pathExists with
  | false => exact ⟨⟨_, rfl⟩, fun e1 e2 e3 _ _ _ => ⟨_, rfl⟩⟩
  | true =>
    simp only [Bool.not_true, Bool.false_eq_true, if_false, if_true, Bool.not_false]
    by_cases hq : pyStrip (q.getD "") = ""
    · simp only [hq, if_pos rfl]
      exact ⟨⟨_, rfl⟩, fun e1 e2 e3 _ _ _ => ⟨_, rfl⟩⟩
    · simp only [if_neg hq]
      by_cases hsel : pyLower (firstWord (pyStrip (q.getD ""))) = "select"
      · simp only [if_pos hsel]
        constructor
        · cases hse : eng.execSelect (pyStrip (q.getD "")) with
          | ok cr => exact ⟨_, rfl⟩
          | error e => exact ⟨_, rfl⟩
        · intro e1 e2 e3 h1 _ _
          rw [h1]
          exact ⟨_, rfl⟩
      · simp only [if_neg hsel]
        by_cases hsc : (containsSub (pyStrip (q.getD "")) ";" && decide (0 < (pyStrip (q.getD "")).data.count ';')) = true
        · simp only [if_pos hsc]
          constructor
          · cases hse : eng.execScript (pyStrip (q.getD "")) with
            | ok n => exact ⟨_, rfl⟩
            | error e => exact ⟨_, rfl⟩
          · intro e1 e2 e3 _ _ h3
            rw [h3]
            exact ⟨_, rfl⟩
        · simp only [if_neg hsc]
          constructor
          · cases hse : eng.execOne (pyStrip (q.getD "")) with
            | ok nl => exact ⟨_, rfl⟩
            | error e => exact ⟨_, rfl⟩
          · intro e1 e2 e3 _ h2 _
            rw [h2]
            exact ⟨_, rfl⟩

/-- Claim C3 witness: the amended theorem instantiated at a concrete
engine that rejects the (misspelled) statement. -/
theorem claim_C3_wit :
    ((∃ r, run_sql engSyntaxErr (some "SELCT * FROM t") = .ret r) ∧
     (∀ e1 e2 e3,
      engSyntaxErr.execSelect (pyStrip ((some "SELCT * FROM t").getD "")) = .error e1 →
      engSyntaxErr.execOne (pyStrip ((some "SELCT * FROM t").getD "")) = .error e2 →
      engSyntaxErr.execScript (pyStrip ((some "SELCT * FROM t").getD "")) = .error e3 →
      ∃ m, run_sql engSyntaxErr (some "SELCT * FROM t") = .ret (.err m))) :=
  claim_C3_thm engSyntaxErr (some "SELCT * FROM t") rfl

/-- Claim C4 counterexample: a failure without a format-validation marker
on the first attempt is retried anyway — the second call succeeds and its
text is returned, refuting both "not retried locally" and "causes the
call to return the empty string". -/
theorem claim_C4_cex :
    ¬ (∀ (p : Provider) (msgs : List Message) (idx : Nat) (e : String),
        p idx = .failure e → marker e = false →
        get_completion p msgs idx = ("", msgs, idx + 1)) := by
  intro h
  have := h provNetThenOk msgsInit 0 "Connection reset by peer" rfl (by decide)
  exact absurd this (by decide)

/-- Claim C4 (amended): `get_completion` makes up to 3 attempts total for
every kind of provider failure; the format-validation marker only
controls whether a corrective system message is appended before a retry
(non-matching failures are retried with the conversation untouched), and
only after all 3 attempts fail does the call return the empty string. -/
theorem claim_C4_thm (p : Provider) (msgs : List Message) (idx : Nat)
    (e0 e1 e2 : String)
    (h0 : p idx = .failure e0) (h1 : p (idx + 1) = .failure e1)
    (h2 : p (idx + 2) = .failure e2) :
    ((get_completion p msgs idx).1 = "" ∧ (get_completion p msgs idx).2.2 = idx + 3) ∧
    (marker e0 = false → marker e1 = false → (get_completion p msgs idx).2.1 = msgs) := by
  have e21 : idx + 1 + 1 = idx + 2 := by omega
  have e32 : idx + 2 + 1 = idx + 3 := by omega
  unfold get_completion
  show ((get_completion_go p (2 + 1) msgs idx).1 = "" ∧ _) ∧ _
  constructor
  · by_cases m0 : marker e0 <;> by_cases m1 : marker e1 <;> by_cases m2 : marker e2 <;>
      simp [get_completion_go, h0, h1, h2, m0, m1, m2, e21, e32]
  · intro m0 m1
    by_cases m2 : marker e2 <;>
      simp [get_completion_go, h0, h1, h2, m0, m1, m2]

/-- Claim C4 witness: the amended theorem instantiated at a provider that
always fails with a network-style error. -/
theorem claim_C4_wit :
    (((get_completion provAllNet msgsInit 0).1 = "" ∧
      (get_completion provAllNet msgsInit 0).2.2 = 0 + 3) ∧
     (marker "Connection reset by peer" = false → marker "Connection reset by peer" = false →
      (get_completion provAllNet msgsInit 0).2.1 = msgsInit)) :=
  claim_C4_thm provAllNet msgsInit 0 _ _ _ rfl rfl rfl

/-- Claim C5 counterexample: during a format-validation retry,
`get_completion` appends a SYSTEM-role reminder to the conversation, so a
reachable final conversation is [system, user, system], violating the
claimed assistant/user-only alternation after the first message. -/
theorem claim_C5_cex :
    ¬ (∀ (eng : Engine) (p : Provider) (jl : JsonLoads) (input : String),
        finalMsgs eng p jl input ≠ [] → claimInv (finalMsgs eng p jl input) = true) := by
  intro h
  have := h engSyntaxErr provValidFail jlAnswer "q" (by decide)
  exact absurd this (by decide)

/-- Claim C5 (amended): throughout every run, the conversation starts
with the system prompt and the user question, every assistant message is
immediately followed by a user message (repair user messages may appear
without a preceding assistant), and the only other messages are the
system-role reminders appended during completion retries, never two in a
row. -/
theorem claim_C5_thm (eng : Engine) (p : Provider) (jl : JsonLoads) (input : String)
    (h : finalMsgs eng p jl input ≠ []) :
    amendInv (finalMsgs eng p jl input) = true := by
  unfold finalMsgs at h ⊢
  cases hpm : process_message eng p jl input with
  | raised e =>
    rw [hpm] at h
    exact absurd rfl h
  | ret out =>
    rw [hpm] at h
    dsimp only at h ⊢
    unfold process_message at hpm
    cases hgs : get_schema_context eng with
    | raised e =>
      rw [hgs] at hpm
      exact absurd hpm (by simp)
    | ret ctx =>
      rw [hgs] at hpm
      dsimp only at hpm
      by_cases hc : ctx = ""
      · rw [if_pos hc] at hpm
        injection hpm with hpm
        rw [← hpm] at h
        exact absurd rfl h
      · rw [if_neg hc] at hpm
        exact pm_go_inv eng p jl 10 _ out (by rfl) hpm

/-- Claim C5 witness: the amended invariant holds of a concrete run. -/
theorem claim_C5_wit :
    finalMsgs engSyntaxErr provAns jlAnswer "q" ≠ [] ∧
    amendInv (finalMsgs engSyntaxErr provAns jlAnswer "q") = true :=
  ⟨by decide, claim_C5_thm engSyntaxErr provAns jlAnswer "q" (by decide)⟩

/-- Claim C6 counterexample: an engine-accepted SELECT with duplicated
column names (as `SELECT 1 AS a, 2 AS a` produces) yields row dicts whose
key count (1) is smaller than the column list length (2), because
`dict(row)` collapses duplicate keys. -/
theorem claim_C6_cex :
    ¬ (∀ (eng : Engine) (q : String) (cols : List String) (rows : List Row),
        selectWF eng → run_sql eng (some q) = .ret (.okSelect cols rows) →
        ∀ r ∈ rows, r.length = cols.length) := by
  intro h
  have hwf : selectWF engDupCols := by
    intro s cols raws hse r hr
    injection hse with hse
    rw [Prod.mk.injEq] at hse
    obtain ⟨h1, h2⟩ := hse
    subst h1; subst h2
    simp only [List.mem_singleton] at hr
    subst hr
    decide
  have := h engDupCols "SELECT 1 AS a, 2 AS a" ["a", "a"] [[("a", "1")]] hwf (by decide)
    [("a", "1")] (by decide)
  exact absurd this (by decide)

/-- Claim C6 (amended): for every engine-accepted SELECT whose result
columns are pairwise distinct, `run_sql` returns ok with a columns list
whose length equals the key count of every returned row mapping. -/
theorem claim_C6_thm (eng : Engine) (q : Option String) (cols : List String) (rows : List Row)
    (hwf : selectWF eng) (hnd : cols.Nodup)
    (h : run_sql eng q = .ret (.okSelect cols rows)) :
    ∀ r ∈ rows, r.length = cols.length := by
  unfold run_sql at h
  by_cases hpe : eng.pathExists = true
  · rw [hpe] at h
    by_cases hco : eng.connectOk = true
    · rw [hco] at h
      simp only [Bool.not_true, Bool.false_eq_true, if_false] at h
      by_cases hq : pyStrip (q.getD "") = ""
      · simp only [hq, if_pos rfl] at h
        exact absurd h (by simp)
      · simp only [if_neg hq] at h
        by_cases hsel : pyLower (firstWord (pyStrip (q.getD ""))) = "select"
        · simp only [if_pos hsel] at h
          cases hse : eng.execSelect (pyStrip (q.getD "")) with
          | error e => rw [hse] at h; exact absurd h (by simp)
          | ok cr =>
            rw [hse] at h
            obtain ⟨cols0, raws⟩ := cr
            injection h with h
            injection h with h1 h2
            intro r hr
            rw [← h2] at hr
            simp only [List.mem_map] at hr
            obtain ⟨v, hv, hre⟩ := hr
            subst hre
            have hlen : v.length = cols0.length := hwf _ _ _ hse v hv
            rw [h1] at hlen ⊢
            exact dictOfRow_length cols v hnd hlen
        · simp only [if_neg hsel] at h
          by_cases hsc : (containsSub (pyStrip (q.getD "")) ";" && decide (0 < (pyStrip (q.getD "")).data.count ';')) = true
          · simp only [if_pos hsc] at h
            cases hse : eng.execScript (pyStrip (q.getD "")) with
            | ok n => rw [hse] at h; exact absurd h (by simp)
            | error e => rw [hse] at h; exact absurd h (by simp)
          · simp only [if_neg hsc] at h
            cases hse : eng.execOne (pyStrip (q.getD "")) with
            | ok nl => rw [hse] at h; exact absurd h (by simp)
            | error e => rw [hse] at h; exact absurd h (by simp)
    · simp only [Bool.not_eq_true] at hco
      rw [hco] at h
      exact absurd h (by simp [hpe])
  · simp only [Bool.not_eq_true] at hpe
    rw [hpe] at h
    exact absurd h (by simp)

/-- Claim C6 witness: the amended theorem instantiated at a
distinct-column SELECT with two rows. -/
theorem claim_C6_wit :
    selectWF engGoodSel ∧ (["a", "b"] : List String).Nodup ∧
    run_sql engGoodSel (some "SELECT a, b FROM t") =
      .ret (.okSelect ["a", "b"] [[("a", "1"), ("b", "2")], [("a", "3"), ("b", "4")]]) ∧
    ∀ r ∈ [[("a", "1"), ("b", "2")], [("a", "3"), ("b", "4")]],
      List.length r = (["a", "b"] : List String).length := by
  have hwf : selectWF engGoodSel := by
    intro s cols raws hse r hr
    injection hse with hse
    rw [Prod.mk.injEq] at hse
    obtain ⟨h1, h2⟩ := hse
    subst h1; subst h2
    simp only [List.mem_cons, List.mem_singleton] at hr
    rcases hr with hr | hr | hr
    · subst hr; decide
    · subst hr; decide
    · exact absurd hr (by simp)
  refine ⟨hwf, by decide, by decide, ?_⟩
  exact claim_C6_thm engGoodSel (some "SELECT a, b FROM t") ["a", "b"] _ hwf (by decide) (by decide)

/-- Claim C7: an engine-accepted non-SELECT statement executes as a batch
with a single commit when its trimmed text contains a semicolon (ok with
rows_affected, no lastrowid) and as a single statement plus commit
otherwise (ok with rows_affected and lastrowid). -/
theorem claim_C7_thm (eng : Engine) (q : Option String)
    (hpe : eng.pathExists = true) (hconn : eng.connectOk = true)
    (hne : pyStrip (q.getD "") ≠ "")
    (hns : pyLower (firstWord (pyStrip (q.getD ""))) ≠ "select") :
    (∀ n, containsSub (pyStrip (q.getD "")) ";" = true →
       eng.execScript (pyStrip (q.getD "")) = .ok n →
       run_sql eng q = .ret (.okMut n none)) ∧
    (∀ n lid, containsSub (pyStrip (q.getD "")) ";" = false →
       eng.execOne (pyStrip (q.getD "")) = .ok (n, lid) →
       run_sql eng q = .ret (.okMut n (some lid))) := by
  unfold run_sql
  rw [hpe, hconn]
  simp only [Bool.not_true, Bool.false_eq_true, if_false, if_neg hne, if_neg hns]
  constructor
  · intro n hsemi hscr
    have hcnt : 0 < (pyStrip (q.getD "")).data.count ';' := (semi_count _).mp hsemi
    rw [if_pos (by simp [hsemi, hcnt]), hscr]
  · intro n lid hsemi hone
    rw [if_neg (by simp [hsemi]), hone]

/-- Claim C7 witness: the theorem instantiated at a concrete mutation
engine, plus the two dispatch outcomes computed on concrete statements. -/
theorem claim_C7_wit :
    ((∀ n, containsSub (pyStrip ((some "INSERT INTO t VALUES (1); INSERT INTO t VALUES (2)").getD "")) ";" = true →
       engMut.execScript (pyStrip ((some "INSERT INTO t VALUES (1); INSERT INTO t VALUES (2)").getD "")) = .ok n →
       run_sql engMut (some "INSERT INTO t VALUES (1); INSERT INTO t VALUES (2)") = .ret (.okMut n none)) ∧
     (∀ n lid, containsSub (pyStrip ((some "INSERT INTO t VALUES (1); INSERT INTO t VALUES (2)").getD "")) ";" = false →
       engMut.execOne (pyStrip ((some "INSERT INTO t VALUES (1); INSERT INTO t VALUES (2)").getD "")) = .ok (n, lid) →
       run_sql engMut (some "INSERT INTO t VALUES (1); INSERT INTO t VALUES (2)") = .ret (.okMut n (some lid)))) ∧
    run_sql engMut (some "INSERT INTO t VALUES (1); INSERT INTO t VALUES (2)") = .ret (.okMut (-1) none) ∧
    run_sql engMut (some "INSERT INTO t VALUES (7)") = .ret (.okMut 1 (some 42)) := by
  refine ⟨claim_C7_thm engMut (some "INSERT INTO t VALUES (1); INSERT INTO t VALUES (2)") rfl rfl (by decide) (by decide), by decide, by decide⟩

/-- Claim C8: when `run_sql` returns ok with more than 10 rows, the sql
branch emits the result-count event carrying the true total and appends
(after the assistant echo) a user feedback message containing the literal
total count and exactly the first 10 serialized rows. -/
theorem claim_C8_thm (eng : Engine) (raw : String) (sq : Option String)
    (msgs : List Message) (cols : List String) (rows : List Row)
    (h : run_sql eng sq = .ret (.okSelect cols rows)) (hlen : 10 < rows.length) :
    sqlBranch eng raw sq msgs =
      .ret (["Executing SQL: " ++ pyStr sq,
             "SQL Result (" ++ toString rows.length ++ " rows)"],
            msgs ++ [⟨.assistant, raw⟩,
              ⟨.user, "Query returned " ++ toString rows.length ++
                " rows. This is too many to show. Here are the first 10 rows:\n" ++
                dumpsRows (rows.take 10) ++
                "\n\nPlease refine your query if you need more specific data, or use this sample to answer."⟩]) := by
  unfold sqlBranch
  rw [h]
  dsimp only [RunResult.getRows]
  rw [okFeedback, if_pos hlen]

/-- Claim C8 witness: the theorem instantiated at a 12-row result. -/
theorem claim_C8_wit :
    run_sql engManyRows (some "SELECT n FROM t") = .ret (.okSelect ["n"] rows12) ∧
    sqlBranch engManyRows "RAW" (some "SELECT n FROM t") msgsInit =
      .ret (["Executing SQL: SELECT n FROM t",
             "SQL Result (" ++ toString rows12.length ++ " rows)"],
            msgsInit ++ [⟨.assistant, "RAW"⟩,
              ⟨.user, "Query returned " ++ toString rows12.length ++
                " rows. This is too many to show. Here are the first 10 rows:\n" ++
                dumpsRows (rows12.take 10) ++
                "\n\nPlease refine your query if you need more specific data, or use this sample to answer."⟩]) := by
  constructor
  · decide
  · exact claim_C8_thm engManyRows "RAW" (some "SELECT n FROM t") msgsInit ["n"] rows12 (by decide) (by decide)

/-- Claim C9: when the database file does not exist, `process_message`
emits exactly one event — the schema error — with zero provider calls and
zero SQL executions (no steps attempted). -/
theorem claim_C9_thm (eng : Engine) (p : Provider) (jl : JsonLoads) (input : String)
    (h : eng.pathExists = false) :
    process_message eng p jl input =
      .ret ⟨[], ["Error: Could not retrieve schema."], 0, []⟩ := by
  unfold process_message get_schema_context list_tables
  rw [h]
  rfl

/-- Claim C9 witness: the theorem instantiated at a missing database
file. -/
theorem claim_C9_wit :
    process_message engNoFile provAns jlAnswer "how many rows?" =
      .ret ⟨[], ["Error: Could not retrieve schema."], 0, []⟩ :=
  claim_C9_thm engNoFile provAns jlAnswer "how many rows?" rfl

/-- Claim C10: a successful non-SELECT result carries no rows field
(`okMut` has none), so the sql branch reports it as an empty read: the
event is "SQL Result (0 rows)" and the appended user feedback is
"Query returned 0 rows:" followed by the empty serialized row list. -/
theorem claim_C10_thm (eng : Engine) (raw : String) (sq : Option String)
    (msgs : List Message) (n : Int) (lid : Option Int)
    (h : run_sql eng sq = .ret (.okMut n lid)) :
    sqlBranch eng raw sq msgs =
      .ret (["Executing SQL: " ++ pyStr sq, "SQL Result (0 rows)"],
            msgs ++ [⟨.assistant, raw⟩, ⟨.user, "Query returned 0 rows:\n[]"⟩]) := by
  unfold sqlBranch
  rw [h]
  dsimp only [RunResult.getRows]
  have h1 : okFeedback ([] : List Row) = "Query returned 0 rows:\n[]" := by decide
  have h2 : ("SQL Result (" ++ toString (([] : List Row)).length ++ " rows)" : String) = "SQL Result (0 rows)" := by decide
  rw [h1, h2]

/-- Claim C10 witness: the theorem instantiated at a concrete successful
INSERT. -/
theorem claim_C10_wit :
    run_sql engMut (some "INSERT INTO t VALUES (7)") = .ret (.okMut 1 (some 42)) ∧
    sqlBranch engMut "RAW" (some "INSERT INTO t VALUES (7)") msgsInit =
      .ret (["Executing SQL: INSERT INTO t VALUES (7)", "SQL Result (0 rows)"],
            msgsInit ++ [⟨.assistant, "RAW"⟩, ⟨.user, "Query returned 0 rows:\n[]"⟩]) :=
  ⟨by decide, claim_C10_thm engMut "RAW" (some "INSERT INTO t VALUES (7)") msgsInit 1 (some 42) (by decide)⟩
